import Mathlib

/-!
Verification of the canvas mini-game core of the `endless-arena-champions`
repository (`src/components/GameArena.tsx`), shallowly embedded in Lean 4.

Positions are continuous coordinates, embedded as rationals.  The host's
random source (`Math.random()`, values in `[0,1)`) is embedded as an
explicit stream `rs : Nat → ℚ` together with an index `k` of the next draw;
each embedded operation consumes draws in the exact order the source code
evaluates its `Math.random()` calls.  React state updates inside one
handler are modelled by their net effect on the state at the next render,
which is how the queued functional updates resolve.
-/

namespace Arena

/-- The `gameState` React state: `'waiting' | 'playing' | 'ended'`. -/
inductive GState where
  | waiting
  | playing
  | ended
deriving DecidableEq, Repr

/-- The collectible kind: `'coin' | 'powerup'` (spec: ordinary / bonus). -/
inductive CType where
  | coin
  | powerup
deriving DecidableEq, Repr

/-- The `Collectible` interface of `GameArena.tsx`. -/
structure Collectible where
  id : String
  x : ℚ
  y : ℚ
  ctype : CType
  value : ℤ
deriving DecidableEq, Repr

/-- The round state held by the `GameArena` component: the `gameState`,
`currentPlayer` (position, score, health, display colour/name), `timeLeft`
and `collectibles` React states. -/
structure GameState where
  phase : GState
  px : ℚ
  py : ℚ
  score : ℤ
  health : ℤ
  pcolor : String
  pname : String
  timeLeft : ℤ
  collectibles : List Collectible
deriving DecidableEq, Repr

/-- Notifications emitted to the surrounding UI: the `onScoreUpdate` and
`onGameEnd` callbacks of `GameArenaProps`. -/
inductive GameEvent where
  | scoreUpdate (s : ℤ)
  | gameEnd (s : ℤ)
deriving DecidableEq, Repr

/-- One collectible built by four consecutive draws of the random source, in
the evaluation order of the object literal in `spawnCollectibles` /
`checkCollisions`: `x = r*550+25`, `y = r*350+25`,
`type = r > 0.7 ? 'powerup' : 'coin'`, `value = r > 0.7 ? 50 : 10`.
Note that the type draw and the value draw are independent. -/
def mkCollectible (rs : Nat → ℚ) (k : Nat) (cid : String) : Collectible :=
  { id := cid
    x := rs k * 550 + 25
    y := rs (k + 1) * 350 + 25
    ctype := if rs (k + 2) > 7/10 then CType.powerup else CType.coin
    value := if rs (k + 3) > 7/10 then 50 else 10 }

/-- `spawnCollectibles`: ten fresh collectibles with ids `collectible-0` …
`collectible-9`, each consuming four draws. -/
def spawnCollectibles (rs : Nat → ℚ) (k : Nat) : List Collectible :=
  (List.range 10).map fun i =>
    mkCollectible rs (k + 4 * i) ("collectible-" ++ toString i)

/-- Squared Euclidean center-to-center distance between the player and a
collectible. -/
def distSq (px py x y : ℚ) : ℚ := (px - x) ^ 2 + (py - y) ^ 2

/-- The collision test of `checkCollisions`:
`Math.sqrt((px-cx)^2+(py-cy)^2) < 20`, equivalently squared distance
`< 400`. -/
def collides (s : GameState) (c : Collectible) : Bool :=
  decide (distSq s.px s.py c.x c.y < 400)

/-- The collectibles consumed by one `checkCollisions` tick (those the
filter callback drops). -/
def collected (s : GameState) : List Collectible :=
  s.collectibles.filter fun c => collides s c

/-- The collectibles retained by one `checkCollisions` tick (the result of
the filter). -/
def surviving (s : GameState) : List Collectible :=
  s.collectibles.filter fun c => !(collides s c)

/-- `checkCollisions`: filter the collectibles by distance `< 20`; for each
consumed collectible the callback computes `newScore = currentPlayer.score
+ collectible.value` from the render-snapshot score and both queues
`setCurrentPlayer(prev => {...prev, score: newScore})` and calls
`onScoreUpdate(newScore)`; since every `newScore` is based on the same
snapshot, the queued updates resolve to the last one.  If the filter
removed anything and fewer than 5 remain, one replacement collectible is
appended (its id uses `Date.now()`, passed here as `now`). -/
def checkCollisions (s : GameState) (rs : Nat → ℚ) (k : Nat) (now : String) :
    GameState × List GameEvent :=
  let kept := surviving s
  let cols := collected s
  let events := cols.map fun c => GameEvent.scoreUpdate (s.score + c.value)
  let score' := match cols.getLast? with
    | none => s.score
    | some c => s.score + c.value
  let collectibles' :=
    if kept.length ≠ s.collectibles.length then
      if kept.length < 5 then
        kept ++ [mkCollectible rs k ("collectible-" ++ now)]
      else kept
    else s.collectibles
  ({ s with score := score', collectibles := collectibles' }, events)

/-- `handleMouseMove`: ignored unless `gameState === 'playing'`; otherwise
the pointer position is clamped to `[15, width-15] × [15, height-15]` for
the 600×400 canvas. -/
def handleMouseMove (s : GameState) (cx cy : ℚ) : GameState :=
  if s.phase = GState.playing then
    { s with px := max 15 (min cx (600 - 15)), py := max 15 (min cy (400 - 15)) }
  else s

/-- `startGame`: set `gameState` to `'playing'`, `timeLeft` to 60, reset the
player's score to 0 and health to 100, and respawn the collectibles. -/
def startGame (s : GameState) (rs : Nat → ℚ) (k : Nat) : GameState :=
  { s with phase := GState.playing
           timeLeft := 60
           score := 0
           health := 100
           collectibles := spawnCollectibles rs k }

/-- `endGame`: set `gameState` to `'ended'` and emit `onGameEnd` with the
current score. -/
def endGame (s : GameState) : GameState × List GameEvent :=
  ({ s with phase := GState.ended }, [GameEvent.gameEnd s.score])

/-- One firing of the timer `useEffect`: while `'playing'` with
`timeLeft > 0` it schedules `setTimeLeft(timeLeft - 1)`; when
`timeLeft === 0` while `'playing'` it calls `endGame()`; otherwise nothing
happens. -/
def timerStep (s : GameState) : GameState × List GameEvent :=
  if s.phase = GState.playing ∧ 0 < s.timeLeft then
    ({ s with timeLeft := s.timeLeft - 1 }, [])
  else if s.timeLeft = 0 ∧ s.phase = GState.playing then
    endGame s
  else (s, [])

/-- `n` consecutive firings of the timer effect, accumulating the emitted
notifications in order. -/
def timerRun (s : GameState) : Nat → GameState × List GameEvent
  | 0 => (s, [])
  | n + 1 =>
    let p := timerStep s
    let q := timerRun p.1 n
    (q.1, p.2 ++ q.2)

/-- The `player` prop of `GameArenaProps`, as handed to the component. -/
structure PlayerProps where
  px : ℚ
  py : ℚ
  score : ℤ
  health : ℤ
  pcolor : String
  pname : String
deriving DecidableEq, Repr

/-- The component's state at mount: `gameState = 'waiting'`,
`currentPlayer = player`, `collectibles = []`, `timeLeft = 60`. -/
def initState (p : PlayerProps) : GameState :=
  { phase := GState.waiting
    px := p.px
    py := p.py
    score := p.score
    health := p.health
    pcolor := p.pcolor
    pname := p.pname
    timeLeft := 60
    collectibles := [] }

/-- The operations the host can drive the arena with: the start button, a
pointer move, a collision-check tick of the game loop, and a timer tick. -/
inductive Op where
  | start (rs : Nat → ℚ) (k : Nat)
  | move (cx cy : ℚ)
  | tick (rs : Nat → ℚ) (k : Nat) (now : String)
  | timer

/-- Apply one operation to the round state (notifications dropped). -/
def applyOp (s : GameState) : Op → GameState
  | Op.start rs k => startGame s rs k
  | Op.move cx cy => handleMouseMove s cx cy
  | Op.tick rs k now => (checkCollisions s rs k now).1
  | Op.timer => (timerStep s).1

/-- The state reached from mount by a sequence of operations. -/
def reaches (p : PlayerProps) (ops : List Op) : GameState :=
  ops.foldl applyOp (initState p)

/-- A state is reachable when some prop values and some operation sequence
produce it. -/
def Reachable (s : GameState) : Prop :=
  ∃ p ops, reaches p ops = s

/-- The drawing commands `render` issues to the 2D context. -/
inductive DrawCmd where
  | fillRect (x y w h : ℚ) (style : String)
  | strokeRect (x y w h : ℚ) (style : String) (lineWidth : ℚ)
  | gridLine (x1 y1 x2 y2 : ℚ)
  | disc (x y r : ℚ) (style : String)
  | circleOutline (x y r : ℚ) (style : String) (lineWidth : ℚ)
  | glow (style : String) (blur : ℚ)
  | label (t : String) (x y : ℚ)
deriving DecidableEq, Repr

/-- The canvas element once sized by the mount effect (600×400). -/
structure Canvas where
  width : Nat
  height : Nat
deriving DecidableEq, Repr

/-- The vertical and horizontal grid lines drawn by `render`
(`for (let i = 0; i < size; i += 50)`). -/
def gridLines (cv : Canvas) : List DrawCmd :=
  ((List.range ((cv.width + 49) / 50)).map fun i =>
    DrawCmd.gridLine (50 * i) 0 (50 * i) cv.height) ++
  ((List.range ((cv.height + 49) / 50)).map fun i =>
    DrawCmd.gridLine 0 (50 * i) cv.width (50 * i))

/-- `render`: when the canvas or its 2D context is unavailable the function
returns early and issues no drawing command; otherwise it clears, draws the
border, the grid, every collectible (with its glow) and the player disc,
outline, glow and name. -/
def render (ctx : Option Canvas) (s : GameState) : List DrawCmd :=
  match ctx with
  | none => []
  | some cv =>
    [DrawCmd.fillRect 0 0 cv.width cv.height "#1a1a1a",
     DrawCmd.strokeRect 0 0 cv.width cv.height "#8b5cf6" 3] ++
    gridLines cv ++
    (s.collectibles.flatMap fun c =>
      let style := if c.ctype = CType.coin then "#fbbf24" else "#10b981"
      [DrawCmd.disc c.x c.y 8 style, DrawCmd.glow style 10]) ++
    [DrawCmd.disc s.px s.py 15 s.pcolor,
     DrawCmd.circleOutline s.px s.py 15 "#ffffff" 2,
     DrawCmd.glow s.pcolor 15,
     DrawCmd.label s.pname s.px (s.py - 25)]

/-- `gameLoop`: one animation-frame tick performs `render()` followed by
`checkCollisions()`.  The drawing surface may be absent. -/
def gameLoopTick (ctx : Option Canvas) (s : GameState) (rs : Nat → ℚ)
    (k : Nat) (now : String) : GameState × List GameEvent × List DrawCmd :=
  let cmds := render ctx s
  let p := checkCollisions s rs k now
  (p.1, p.2, cmds)

/-! Concrete sample data used to exercise the model on explicit inputs. -/

/-- Sample component props. -/
def p0 : PlayerProps :=
  { px := 0, py := 0, score := 0, health := 100, pcolor := "#f00", pname := "p1" }

/-- A random source that always draws 0: every spawned collectible lands at
(25, 25) and is an ordinary coin of value 10. -/
def rs0 : Nat → ℚ := fun _ => 0

/-- A random source whose draws 42 and 43 (the type and value draws of a
replenishment spawn started at index 40) are 0.8 and 0.5; all other draws
are 0. -/
def rsC : Nat → ℚ := fun i => if i = 42 then 4/5 else if i = 43 then 1/2 else 0

/-- A random source for `startGame` at index 0 that puts collectibles 0 and
1 at (25, 25) with values 10 and 50 and the remaining eight at (300, 200)
with value 10. -/
def rs3 : Nat → ℚ := fun i =>
  if i = 7 then 4/5 else if i < 8 then 0 else if i % 4 ≤ 1 then 1/2 else 0

/-- Start a round with source `rsC`, then move the player onto (25, 25),
where all ten collectibles sit. -/
def c1state : GameState := reaches p0 [Op.start rsC 0, Op.move 25 25]

/-- Start a round with the all-zero source, then move the player onto
(25, 25), where all ten collectibles sit. -/
def c2state : GameState := reaches p0 [Op.start rs0 0, Op.move 25 25]

/-- Start a round with source `rs3`, then move the player onto (25, 25),
where exactly collectibles 0 (value 10) and 1 (value 50) sit. -/
def c3state : GameState := reaches p0 [Op.start rs3 0, Op.move 25 25]

/-- The state after the `c1state` trace additionally runs one collision
tick: the player has picked up and holds a positive score. -/
def c8state : GameState := reaches p0 [Op.start rsC 0, Op.move 25 25, Op.tick rsC 40 "r"]

/-- An Active state with a single collectible, sitting on the player. -/
def demo1 : GameState :=
  { phase := GState.playing, px := 100, py := 100, score := 0, health := 100,
    pcolor := "#f00", pname := "p1", timeLeft := 60,
    collectibles := [⟨"a", 100, 100, CType.coin, 10⟩] }

/-- An Active state with five collectibles of which exactly one sits on the
player. -/
def demo5 : GameState :=
  { phase := GState.playing, px := 100, py := 100, score := 0, health := 100,
    pcolor := "#f00", pname := "p1", timeLeft := 60,
    collectibles := [⟨"a", 100, 100, CType.coin, 10⟩,
                     ⟨"b", 300, 300, CType.coin, 10⟩,
                     ⟨"c", 400, 300, CType.powerup, 50⟩,
                     ⟨"d", 500, 100, CType.coin, 10⟩,
                     ⟨"e", 200, 350, CType.coin, 10⟩] }

/-- An Active state one timer tick away from expiry. -/
def demoT : GameState :=
  { phase := GState.playing, px := 100, py := 100, score := 7, health := 100,
    pcolor := "#f00", pname := "p1", timeLeft := 1, collectibles := [] }

/-! Shared lemmas about one collision tick. -/

/-- The filter of `checkCollisions` partitions the collectibles into the
consumed and the retained ones. -/
theorem length_collected_add_surviving (s : GameState) :
    s.collectibles.length = (collected s).length + (surviving s).length := by
  simpa [collected, surviving] using
    List.length_eq_length_filter_add (l := s.collectibles) (collides s)

/-- When the filter removes nothing it returns the collectible list
unchanged. -/
theorem surviving_eq_of_full_length (s : GameState)
    (h : (surviving s).length = s.collectibles.length) :
    surviving s = s.collectibles :=
  (List.filter_sublist s.collectibles).eq_of_length h

/-- The collectible list produced by one `checkCollisions` tick: the
retained collectibles, plus one replacement exactly when something was
removed and fewer than five remain. -/
theorem checkCollisions_collectibles (s : GameState) (rs : Nat → ℚ) (k : Nat)
    (now : String) :
    (checkCollisions s rs k now).1.collectibles =
      surviving s ++
        (if (surviving s).length ≠ s.collectibles.length ∧ (surviving s).length < 5
          then [mkCollectible rs k ("collectible-" ++ now)] else []) := by
  by_cases h1 : (surviving s).length = s.collectibles.length
  · have he : surviving s = s.collectibles := surviving_eq_of_full_length s h1
    simp [checkCollisions, h1, he]
  · by_cases h2 : (surviving s).length < 5 <;> simp [checkCollisions, h1, h2]

/-- A collision tick changes only the score and the collectible list. -/
theorem checkCollisions_frame (s : GameState) (rs : Nat → ℚ) (k : Nat)
    (now : String) :
    (checkCollisions s rs k now).1.phase = s.phase ∧
    (checkCollisions s rs k now).1.px = s.px ∧
    (checkCollisions s rs k now).1.py = s.py ∧
    (checkCollisions s rs k now).1.timeLeft = s.timeLeft := by
  simp [checkCollisions]

/-- Claim C4: one collision-check tick removes a collectible exactly when
the Euclidean center-to-center distance between the player and that
collectible is strictly below 20 units; a collectible at distance 20 or
more stays, unchanged, in the retained list, and the tick's resulting
collectible list is exactly the retained collectibles plus at most one
freshly spawned replacement. -/
theorem c4_pickup_radius (s : GameState) (c : Collectible) (rs : Nat → ℚ)
    (k : Nat) (now : String) :
    (c ∈ surviving s ↔ c ∈ s.collectibles ∧
      ¬ Real.sqrt (((s.px - c.x) ^ 2 + (s.py - c.y) ^ 2 : ℚ) : ℝ) < 20) ∧
    (c ∈ collected s ↔ c ∈ s.collectibles ∧
      Real.sqrt (((s.px - c.x) ^ 2 + (s.py - c.y) ^ 2 : ℚ) : ℝ) < 20) ∧
    (checkCollisions s rs k now).1.collectibles =
      surviving s ++
        (if (surviving s).length ≠ s.collectibles.length ∧ (surviving s).length < 5
          then [mkCollectible rs k ("collectible-" ++ now)] else []) := by
  have hsq : Real.sqrt (((s.px - c.x) ^ 2 + (s.py - c.y) ^ 2 : ℚ) : ℝ) < 20 ↔
      distSq s.px s.py c.x c.y < 400 := by
    rw [Real.sqrt_lt' (by norm_num : (0:ℝ) < 20)]
    rw [distSq]
    constructor
    · intro h
      exact_mod_cast h
    · intro h
      exact_mod_cast h
  refine ⟨?_, ?_, checkCollisions_collectibles s rs k now⟩
  · simp only [surviving, List.mem_filter, collides, Bool.not_eq_true',
      decide_eq_false_iff_not, hsq]
  · simp only [collected, List.mem_filter, collides, decide_eq_true_eq, hsq]

/-- Claim C1 (amended): a replenishment spawn triggered by a tick that
removed collectibles and left fewer than five synthesizes exactly one new
collectible; its kind is bonus (`powerup`) precisely when its type draw
exceeds 0.7, and its value is 50 precisely when its separate, independent
value draw exceeds 0.7 (else 10) — the value is not determined by the
kind. -/
theorem c1_replenish_spawn (s : GameState) (rs : Nat → ℚ) (k : Nat)
    (now : String)
    (h1 : (surviving s).length ≠ s.collectibles.length)
    (h2 : (surviving s).length < 5) :
    (checkCollisions s rs k now).1.collectibles =
      surviving s ++ [mkCollectible rs k ("collectible-" ++ now)] ∧
    ((mkCollectible rs k ("collectible-" ++ now)).ctype = CType.powerup ↔
      7/10 < rs (k + 2)) ∧
    ((mkCollectible rs k ("collectible-" ++ now)).value =
      if 7/10 < rs (k + 3) then 50 else 10) := by
  refine ⟨?_, ?_, rfl⟩
  · rw [checkCollisions_collectibles s rs k now, if_pos ⟨h1, h2⟩]
  · simp only [mkCollectible]
    split <;> rename_i h <;> simp [h]

/-- Witness for C1 (amended): a replenishment spawn out of `demo1`. -/
theorem c1_replenish_spawn_witness :
    ((surviving demo1).length ≠ demo1.collectibles.length ∧
      (surviving demo1).length < 5) ∧
    ((checkCollisions demo1 rs0 0 "z").1.collectibles =
      surviving demo1 ++ [mkCollectible rs0 0 ("collectible-" ++ "z")] ∧
    ((mkCollectible rs0 0 ("collectible-" ++ "z")).ctype = CType.powerup ↔
      7/10 < rs0 2) ∧
    ((mkCollectible rs0 0 ("collectible-" ++ "z")).value =
      if 7/10 < rs0 3 then 50 else 10)) :=
  ⟨⟨by norm_num [surviving, collides, distSq, demo1, List.filter],
    by norm_num [surviving, collides, distSq, demo1, List.filter]⟩,
   c1_replenish_spawn demo1 rs0 0 "z"
     (by norm_num [surviving, collides, distSq, demo1, List.filter])
     (by norm_num [surviving, collides, distSq, demo1, List.filter])⟩

/-- Counterexample to claim C1 as stated: in a reachable Active round, a
tick that picks up all ten collectibles triggers a replenishment spawn
whose kind is bonus (`powerup`) but whose value is 10, because the type
draw (0.8) and the value draw (0.5) are independent. -/
theorem c1_kind_value_mismatch :
    Reachable c1state ∧ c1state.phase = GState.playing ∧
    (surviving c1state).length ≠ c1state.collectibles.length ∧
    (surviving c1state).length < 5 ∧
    (checkCollisions c1state rsC 40 "now").1.collectibles.map Collectible.ctype
      = [CType.powerup] ∧
    (checkCollisions c1state rsC 40 "now").1.collectibles.map Collectible.value
      = [10] := by
  refine ⟨⟨p0, [Op.start rsC 0, Op.move 25 25], rfl⟩, ?_, ?_, ?_, ?_, ?_⟩ <;>
    norm_num [c1state, reaches, p0, initState, applyOp, startGame,
      handleMouseMove, spawnCollectibles, mkCollectible, rsC, List.range_succ,
      checkCollisions, surviving, collected, collides, distSq, List.filter]

/-- Claim C2 (amended): a collision tick that consumes at most one
collectible, from an Active state holding at least five, leaves at least
five collectibles after replenishment; a tick that consumes several at once
can leave fewer, since only one replacement is spawned. -/
theorem c2_threshold_single_pickup (s : GameState) (rs : Nat → ℚ) (k : Nat)
    (now : String) (h5 : 5 ≤ s.collectibles.length)
    (h1 : (collected s).length ≤ 1) :
    5 ≤ (checkCollisions s rs k now).1.collectibles.length := by
  have hpart := length_collected_add_surviving s
  rw [checkCollisions_collectibles s rs k now]
  rcases Nat.lt_or_ge (surviving s).length 5 with hlt | hge
  · by_cases heq : (surviving s).length = s.collectibles.length
    · omega
    · rw [if_pos ⟨heq, hlt⟩]
      simp only [List.length_append, List.length_cons, List.length_nil]
      omega
  · rw [if_neg fun h => absurd h.2 (Nat.not_lt.mpr hge)]
    simpa using hge

/-- Witness for C2 (amended): a tick on `demo5` consumes exactly one of its
five collectibles and the count stays at five. -/
theorem c2_threshold_single_pickup_witness :
    (5 ≤ demo5.collectibles.length ∧ (collected demo5).length ≤ 1) ∧
    5 ≤ (checkCollisions demo5 rs0 0 "z").1.collectibles.length :=
  ⟨⟨by norm_num [demo5],
    by norm_num [collected, collides, distSq, demo5, List.filter]⟩,
   c2_threshold_single_pickup demo5 rs0 0 "z" (by norm_num [demo5])
     (by norm_num [collected, collides, distSq, demo5, List.filter])⟩

/-- Counterexample to claim C2 as stated: in a reachable Active round with
ten collectibles, a single tick that consumes all of them spawns only one
replacement, leaving the count at 1, strictly below the threshold 5. -/
theorem c2_threshold_violated :
    Reachable c2state ∧ c2state.phase = GState.playing ∧
    5 ≤ c2state.collectibles.length ∧
    (checkCollisions c2state rs0 40 "now").1.collectibles.length < 5 := by
  refine ⟨⟨p0, [Op.start rs0 0, Op.move 25 25], rfl⟩, ?_, ?_, ?_⟩ <;>
    norm_num [c2state, reaches, p0, initState, applyOp, startGame,
      handleMouseMove, spawnCollectibles, mkCollectible, rs0, List.range_succ,
      checkCollisions, surviving, collected, collides, distSq, List.filter]

/-- Claim C3, evaluated at a failing input: in a reachable Active round
with score 0, one tick consumes two collectibles of values 10 and 50, yet
the score after the tick is 50, not the claimed sum 60 — each queued score
update is computed from the same stale score snapshot, so the last pickup
overwrites the earlier ones. -/
theorem c3_multi_pickup_score_lost :
    Reachable c3state ∧ c3state.phase = GState.playing ∧ c3state.score = 0 ∧
    (collected c3state).map Collectible.value = [10, 50] ∧
    (checkCollisions c3state rs3 40 "now").1.score = 50 ∧
    (checkCollisions c3state rs3 40 "now").1.score ≠ 10 + 50 := by
  refine ⟨⟨p0, [Op.start rs3 0, Op.move 25 25], rfl⟩, ?_, ?_, ?_, ?_, ?_⟩ <;>
    norm_num [c3state, reaches, p0, initState, applyOp, startGame,
      handleMouseMove, spawnCollectibles, mkCollectible, rs3, List.range_succ,
      checkCollisions, surviving, collected, collides, distSq, List.filter,
      List.getLast?, List.getLast]

/-- Claim C5: a pointer-move processed while the round is Active leaves the
player inside `[15, 585] × [15, 385]`, whatever the raw pointer
coordinates. -/
theorem c5_pointer_clamped (s : GameState) (cx cy : ℚ)
    (h : s.phase = GState.playing) :
    15 ≤ (handleMouseMove s cx cy).px ∧ (handleMouseMove s cx cy).px ≤ 585 ∧
    15 ≤ (handleMouseMove s cx cy).py ∧ (handleMouseMove s cx cy).py ≤ 385 := by
  simp only [handleMouseMove, if_pos h]
  refine ⟨le_max_left _ _,
    max_le (by norm_num) ((min_le_right _ _).trans (by norm_num)),
    le_max_left _ _,
    max_le (by norm_num) ((min_le_right _ _).trans (by norm_num))⟩

/-- Witness for C5 at the out-of-bounds pointer position (1000, -50). -/
theorem c5_pointer_clamped_witness :
    demo1.phase = GState.playing ∧
    (15 ≤ (handleMouseMove demo1 1000 (-50)).px ∧
      (handleMouseMove demo1 1000 (-50)).px ≤ 585 ∧
      15 ≤ (handleMouseMove demo1 1000 (-50)).py ∧
      (handleMouseMove demo1 1000 (-50)).py ≤ 385) :=
  ⟨rfl, c5_pointer_clamped demo1 1000 (-50) rfl⟩

/-- Claim C6: `startGame`, invoked from any state, yields an Active round
with score 0, 60 time units remaining, and a freshly repopulated set of ten
collectibles. -/
theorem c6_start_resets (s : GameState) (rs : Nat → ℚ) (k : Nat) :
    (startGame s rs k).phase = GState.playing ∧
    (startGame s rs k).score = 0 ∧
    (startGame s rs k).timeLeft = 60 ∧
    (startGame s rs k).collectibles = spawnCollectibles rs k ∧
    (startGame s rs k).collectibles.length = 10 := by
  simp [startGame, spawnCollectibles]

/-- Once the round has ended, a timer firing does nothing and emits
nothing. -/
theorem timerStep_of_ended (s : GameState) (h : s.phase = GState.ended) :
    timerStep s = (s, []) := by
  simp [timerStep, h]

/-- Once the round has ended, any number of timer firings does nothing and
emits nothing. -/
theorem timerRun_of_ended (s : GameState) (h : s.phase = GState.ended)
    (m : Nat) : timerRun s m = (s, []) := by
  induction m with
  | zero => rfl
  | succ n ih => simp [timerRun, timerStep_of_ended s h, ih]

/-- Claim C7: from any Active state, enough timer firings drive
time-remaining to 0, the round transitions to Ended, and exactly one
round-end notification is emitted, carrying the score at that instant;
afterwards no timer firing decrements anything or emits anything until a
new start. -/
theorem c7_round_end_once (s : GameState) (n : Nat)
    (hp : s.phase = GState.playing) (h0 : 0 ≤ s.timeLeft)
    (hn : s.timeLeft.toNat < n) :
    (timerRun s n).2 = [GameEvent.gameEnd s.score] ∧
    (timerRun s n).1.phase = GState.ended ∧
    (timerRun s n).1.score = s.score ∧
    ∀ m, timerRun (timerRun s n).1 m = ((timerRun s n).1, []) := by
  induction n generalizing s with
  | zero => exact absurd hn (Nat.not_lt_zero _)
  | succ n ih =>
    by_cases ht : 0 < s.timeLeft
    · have hstep : timerStep s = ({ s with timeLeft := s.timeLeft - 1 }, []) := by
        simp [timerStep, hp, ht]
      have hn' : ({ s with timeLeft := s.timeLeft - 1 } : GameState).timeLeft.toNat < n := by
        simp only []
        omega
      have hrec := ih { s with timeLeft := s.timeLeft - 1 } hp (by simp; omega) hn'
      simp only [timerRun, hstep, List.nil_append]
      exact hrec
    · have ht0 : s.timeLeft = 0 := le_antisymm (not_lt.mp ht) h0
      have hstep : timerStep s =
          ({ s with phase := GState.ended }, [GameEvent.gameEnd s.score]) := by
        simp [timerStep, endGame, hp, ht0]
      have hrun := timerRun_of_ended { s with phase := GState.ended } rfl n
      have hfix : timerRun s (n + 1) =
          ({ s with phase := GState.ended }, [GameEvent.gameEnd s.score]) := by
        simp [timerRun, hstep, hrun]
      rw [hfix]
      exact ⟨rfl, rfl, rfl, fun m =>
        timerRun_of_ended { s with phase := GState.ended } rfl m⟩

/-- Witness for C7: two timer firings on `demoT` (one time unit left) end
the round and emit exactly one notification with the score 7. -/
theorem c7_round_end_once_witness :
    (demoT.phase = GState.playing ∧ 0 ≤ demoT.timeLeft ∧
      demoT.timeLeft.toNat < 2) ∧
    ((timerRun demoT 2).2 = [GameEvent.gameEnd demoT.score] ∧
      (timerRun demoT 2).1.phase = GState.ended ∧
      (timerRun demoT 2).1.score = demoT.score ∧
      ∀ m, timerRun (timerRun demoT 2).1 m = ((timerRun demoT 2).1, [])) :=
  ⟨⟨rfl, by norm_num [demoT], by norm_num [demoT]⟩,
   c7_round_end_once demoT 2 rfl (by norm_num [demoT]) (by norm_num [demoT])⟩

/-- Claim C8 (amended): the score never decreases under a pointer move, a
collision tick (whose collectibles all carry non-negative values, as every
spawned collectible does), or a timer firing; `startGame`, however, resets
it to 0. -/
theorem c8_score_monotone_non_start (s : GameState) (cx cy : ℚ)
    (rs : Nat → ℚ) (k : Nat) (now : String)
    (hv : ∀ c ∈ s.collectibles, 0 ≤ c.value) :
    s.score ≤ (handleMouseMove s cx cy).score ∧
    s.score ≤ (checkCollisions s rs k now).1.score ∧
    s.score ≤ (timerStep s).1.score := by
  refine ⟨?_, ?_, ?_⟩
  · unfold handleMouseMove
    split <;> exact le_refl _
  · show s.score ≤ (match (collected s).getLast? with
      | none => s.score
      | some c => s.score + c.value)
    cases hlast : (collected s).getLast? with
    | none => exact le_refl _
    | some c =>
      have hc : c ∈ collected s := List.mem_of_mem_getLast? hlast
      have hmem : c ∈ s.collectibles := List.mem_of_mem_filter hc
      simpa using hv c hmem
  · unfold timerStep endGame
    split
    · exact le_refl _
    · split <;> exact le_refl _

/-- Witness for C8 (amended) on `demo5`, whose values are all
non-negative. -/
theorem c8_score_monotone_non_start_witness :
    (∀ c ∈ demo5.collectibles, 0 ≤ c.value) ∧
    (demo5.score ≤ (handleMouseMove demo5 1000 (-50)).score ∧
      demo5.score ≤ (checkCollisions demo5 rs0 0 "z").1.score ∧
      demo5.score ≤ (timerStep demo5).1.score) :=
  ⟨by norm_num [demo5], c8_score_monotone_non_start demo5 1000 (-50) rs0 0 "z"
    (by norm_num [demo5])⟩

/-- Counterexample to claim C8 as stated: in a reachable state with score
10, the start operation (a legal restart while Active) resets the score to
0, a strict decrease. -/
theorem c8_restart_drops_score :
    Reachable c8state ∧ c8state.score = 10 ∧
    (startGame c8state rs0 0).score = 0 ∧
    ¬ c8state.score ≤ (startGame c8state rs0 0).score := by
  refine ⟨⟨p0, [Op.start rsC 0, Op.move 25 25, Op.tick rsC 40 "r"], rfl⟩,
    ?_, ?_, ?_⟩ <;>
    norm_num [c8state, reaches, p0, initState, applyOp, startGame,
      handleMouseMove, spawnCollectibles, mkCollectible, rsC, List.range_succ,
      checkCollisions, surviving, collected, collides, distSq, List.filter,
      List.getLast?, List.getLast]

/-- A single operation keeps time-remaining within `[0, 60]`. -/
theorem timeLeft_bounds_step (s : GameState) (op : Op)
    (h : 0 ≤ s.timeLeft ∧ s.timeLeft ≤ 60) :
    0 ≤ (applyOp s op).timeLeft ∧ (applyOp s op).timeLeft ≤ 60 := by
  obtain ⟨h0, h60⟩ := h
  cases op with
  | start rs k =>
    show 0 ≤ (startGame s rs k).timeLeft ∧ (startGame s rs k).timeLeft ≤ 60
    norm_num [startGame]
  | move cx cy =>
    show 0 ≤ (handleMouseMove s cx cy).timeLeft ∧
      (handleMouseMove s cx cy).timeLeft ≤ 60
    unfold handleMouseMove
    split
    · exact ⟨h0, h60⟩
    · exact ⟨h0, h60⟩
  | tick rs k now =>
    show 0 ≤ (checkCollisions s rs k now).1.timeLeft ∧
      (checkCollisions s rs k now).1.timeLeft ≤ 60
    rw [(checkCollisions_frame s rs k now).2.2.2]
    exact ⟨h0, h60⟩
  | timer =>
    show 0 ≤ (timerStep s).1.timeLeft ∧ (timerStep s).1.timeLeft ≤ 60
    unfold timerStep endGame
    split
    · rename_i hc
      obtain ⟨-, hpos⟩ := hc
      show 0 ≤ s.timeLeft - 1 ∧ s.timeLeft - 1 ≤ 60
      omega
    · split
      · exact ⟨h0, h60⟩
      · exact ⟨h0, h60⟩

/-- Claim C10: along every operation sequence from mount, time-remaining
stays within `[0, 60]`; it starts at 60, `startGame` resets it to 60, and a
timer firing decrements it by exactly 1 precisely while the round is Active
with positive time-remaining, leaving it unchanged otherwise. -/
theorem c10_time_left_bounds (p : PlayerProps) (ops : List Op) :
    (0 ≤ (reaches p ops).timeLeft ∧ (reaches p ops).timeLeft ≤ 60) ∧
    (initState p).timeLeft = 60 ∧
    (∀ s rs k, (startGame s rs k).timeLeft = 60) ∧
    (∀ s : GameState, (timerStep s).1.timeLeft =
      if s.phase = GState.playing ∧ 0 < s.timeLeft then s.timeLeft - 1
      else s.timeLeft) := by
  refine ⟨?_, rfl, fun s rs k => rfl, fun s => ?_⟩
  · unfold reaches
    have hinit : 0 ≤ (initState p).timeLeft ∧ (initState p).timeLeft ≤ 60 := by
      norm_num [initState]
    have hfold : ∀ (l : List Op) (s : GameState),
        0 ≤ s.timeLeft ∧ s.timeLeft ≤ 60 →
        0 ≤ (l.foldl applyOp s).timeLeft ∧ (l.foldl applyOp s).timeLeft ≤ 60 := by
      intro l
      induction l with
      | nil => intro s hs; exact hs
      | cons op t ih => intro s hs; exact ih _ (timeLeft_bounds_step s op hs)
    exact hfold ops (initState p) hinit
  · unfold timerStep endGame
    split
    · rfl
    · split <;> rfl

/-- Claim C9: with the drawing surface unavailable a game-loop tick issues
no drawing command and still totals cleanly — its game-state and
notification outcome is exactly that of `checkCollisions` — and a tick that
finds the surface again renders the full non-empty command list. -/
theorem c9_surface_unavailable_safe (cv : Canvas) (s : GameState)
    (rs : Nat → ℚ) (k : Nat) (now : String) :
    gameLoopTick none s rs k now =
      ((checkCollisions s rs k now).1, (checkCollisions s rs k now).2, []) ∧
    (gameLoopTick (some cv) s rs k now).1 = (gameLoopTick none s rs k now).1 ∧
    (gameLoopTick (some cv) s rs k now).2.1 = (gameLoopTick none s rs k now).2.1 ∧
    (gameLoopTick (some cv) s rs k now).2.2 = render (some cv) s ∧
    render (some cv) s ≠ [] := by
  refine ⟨rfl, rfl, rfl, rfl, ?_⟩
  simp [render]

end Arena
